import Mathlib

/-!
Verification of the BizPilot retrieval-augmented lead pipeline.

Shallow embedding of the core pipeline code:
  - `rag_pipeline.py`: embedding service, vector store, rule-based intent
    classifier, retrieval for classification and for message generation,
    knowledge-base indexing;
  - `message_generator.py`: message generation with confidence scoring,
    fallback messages and the model-call audit log;
  - `models.py`: the data model (knowledge documents, lead intents).

Python floats are modelled as rationals (`ℚ`), Python `None`-able strings as
`Option String`, Python dicts with string values as association lists, and the
external services (embedding backend, vector index distance, generative
backend, audit write) as explicit parameters so that every code path of the
embedded functions is a total function of its inputs.
-/

namespace BizPilot

/-- Python truthiness of an optional string: `None` and `""` are falsy.
Used wherever the source writes `if lead_data.get('company'):` etc. -/
def truthy : Option String → Bool
  | none => false
  | some s => !s.isEmpty

/-- Python `str.lower()`: character-wise lowercasing. -/
def pyLower (s : String) : String :=
  ⟨s.data.map Char.toLower⟩

/-- Python `needle in hay` on strings: substring containment. -/
def containsSubstr (hay needle : String) : Bool :=
  decide (needle.data <:+: hay.data)

/-- A single quote character, as produced by Python `repr` of a string. -/
def singleQuote : String := "\x27"

/-- Python `str(list_of_strings)`: `repr` of a list of strings that contain
no quotes themselves — a bracketed, comma-separated, single-quoted list. -/
def pyStrListRepr (xs : List String) : String :=
  "[" ++ String.intercalate ", " (xs.map (fun s => singleQuote ++ s ++ singleQuote)) ++ "]"

/-- Lookup with default in a string-valued dict, Python `d.get(k, dflt)`. -/
def dictGet (d : List (String × String)) (k dflt : String) : String :=
  match d.find? (fun p => p.fst == k) with
  | some p => p.snd
  | none => dflt

/-- `rag_pipeline.RetrievedContext`: retrieved context from the vector DB.
`score` is the similarity (`1.0 - distance` in `VectorStore.search`). -/
structure RetrievedContext where
  doc_id : String
  content : String
  score : ℚ
  metadata : List (String × String)
deriving Repr, DecidableEq

/-- `models.LeadIntent`: the four declared lead intents. -/
inductive LeadIntent where
  | hot
  | warm
  | cold
  | unqualified
deriving Repr, DecidableEq

/-- String value of a `LeadIntent`, per `models.LeadIntent`. -/
def LeadIntent.toStr : LeadIntent → String
  | .hot => "hot"
  | .warm => "warm"
  | .cold => "cold"
  | .unqualified => "unqualified"

/-- The hot-signal phrase list of `RAGPipeline._classify_with_rules`. -/
def hot_signals : List String :=
  ["urgent", "asap", "immediately", "buy now", "purchase",
   "pricing", "demo", "trial", "start today"]

/-- The warm-signal phrase list of `RAGPipeline._classify_with_rules`. -/
def warm_signals : List String :=
  ["interested", "learn more", "information", "how does",
   "tell me about", "curious", "exploring"]

/-- `RAGPipeline._classify_with_rules(query, contexts, source_meta)`:
ordered first-match rule cascade over the lowercased query. Returns the
`(intent, confidence, reason)` triple of the source. The `source_meta`
argument of the source is unused by the source body and omitted here. -/
def classify_with_rules (query : String) (contexts : List RetrievedContext) :
    String × ℚ × String :=
  let query_lower := pyLower query
  if hot_signals.any (fun s => containsSubstr query_lower s) then
    ("hot", 0.85, "High-intent keywords detected: " ++
      pyStrListRepr (hot_signals.filter (fun s => containsSubstr query_lower s)))
  else if warm_signals.any (fun s => containsSubstr query_lower s) then
    ("warm", 0.70, "Interest indicators found: " ++
      pyStrListRepr (warm_signals.filter (fun s => containsSubstr query_lower s)))
  else if query.length < 20 then
    ("cold", 0.60, "Brief inquiry, needs more context")
  else
    match contexts with
    | [] => ("cold", 0.50, "Standard inquiry, no strong signals")
    | c :: _ =>
      if c.score > 0.7 then
        ("warm", 0.65, "Relevant to our knowledge base: " ++ dictGet c.metadata "title" "N/A")
      else
        ("cold", 0.50, "Standard inquiry, no strong signals")

/-- Structured source metadata of a lead (`lead_data['source_metadata']`). -/
structure SourceMeta where
  message : Option String
  subject : Option String
deriving Repr, DecidableEq

/-- Lead data as consumed by `classify_lead` / `generate_message`:
`name`, `company`, `email`, `source_metadata`. An absent dict key is `none`. -/
structure LeadData where
  name : Option String
  company : Option String
  email : Option String
  source_metadata : SourceMeta
deriving Repr, DecidableEq

/-- The query-building block of `RAGPipeline.classify_lead` (lines 237-250):
decorated `Company:` / `Message:` / `Subject:` parts joined by newlines,
falling back to the lead's name when no part is present. -/
def build_classification_query (lead : LeadData) : String :=
  let query_parts : List String :=
    (if truthy lead.company then ["Company: " ++ lead.company.getD ""] else []) ++
    (if truthy lead.source_metadata.message then
      ["Message: " ++ lead.source_metadata.message.getD ""] else []) ++
    (if truthy lead.source_metadata.subject then
      ["Subject: " ++ lead.source_metadata.subject.getD ""] else [])
  if query_parts.isEmpty then lead.name.getD "" else String.intercalate "\n" query_parts

/-- Result dict of `RAGPipeline.classify_lead`. -/
structure Classification where
  intent : String
  confidence : ℚ
  reason : String
  retrieved_docs : List String
  context_snippets : List String
deriving Repr, DecidableEq

/-- The type of the vector-store search call as seen from the pipeline:
query embedding, `n_results`, optional metadata filter (a key-value pair,
`none` meaning unfiltered). -/
def SearchFn : Type :=
  List ℚ → Nat → Option (String × String) → List RetrievedContext

/-- `RAGPipeline.classify_lead(lead_data)`: builds the query, embeds it,
retrieves 5 unfiltered contexts, and classifies with the rule cascade.
`embed` is the embedding service and `searchFn` the vector-store search. -/
def classify_lead (embed : String → List ℚ) (searchFn : SearchFn)
    (lead : LeadData) : Classification :=
  let query_text := build_classification_query lead
  let query_embedding := embed query_text
  let contexts := searchFn query_embedding 5 none
  let r := classify_with_rules query_text contexts
  { intent := r.1
    confidence := r.2.1
    reason := r.2.2
    retrieved_docs := contexts.map (fun ctx => ctx.doc_id)
    context_snippets := contexts.map (fun ctx => ctx.content.take 200) }

/-- The intent-specific keyword seed of `retrieve_context_for_message`. -/
def generation_seed (intent : String) : String :=
  if intent == "hot" then "pricing demo trial purchase"
  else if intent == "warm" then "features benefits how it works"
  else "introduction overview getting started"

/-- The query-building block of `RAGPipeline.retrieve_context_for_message`:
seed keywords, then the company name when present, joined by spaces. -/
def build_generation_query (lead : LeadData) (intent : String) : String :=
  let query_parts : List String :=
    [generation_seed intent] ++
    (if truthy lead.company then [lead.company.getD ""] else [])
  String.intercalate " " query_parts

/-- `RAGPipeline.retrieve_context_for_message(lead_data, intent)`: embeds the
intent-biased query and searches with `n_results=3`, filtering to
`doc_type=faq` exactly when the intent is hot. -/
def retrieve_context_for_message (embed : String → List ℚ) (searchFn : SearchFn)
    (lead : LeadData) (intent : String) : List RetrievedContext :=
  let query_text := build_generation_query lead intent
  let query_embedding := embed query_text
  searchFn query_embedding 3 (if intent == "hot" then some ("doc_type", "faq") else none)

/-- `models.KnowledgeBase`: a knowledge-base document record.
`embedding_id` is `none` until indexed (nullable column). -/
structure KnowledgeDoc where
  id : Nat
  title : String
  content : String
  doc_type : String
  source_url : Option String
  priority : Int
  active : Bool
  embedding_id : Option String
deriving Repr, DecidableEq

/-- One entry of the vector store: id, content, metadata and the stored
embedding vector, as assembled in `VectorStore.add_documents`. -/
structure StoreEntry where
  id : String
  content : String
  metadata : List (String × String)
  embedding : List ℚ
deriving Repr, DecidableEq

/-- `VectorStore.add_documents`: appends the given documents (already paired
with their embeddings) to the collection. The source performs no validation
of its own before `collection.add`. -/
def add_documents (store : List StoreEntry) (entries : List StoreEntry) :
    List StoreEntry :=
  store ++ entries

/-- `VectorStore.delete_document(doc_id)`: removes the entry with that id. -/
def delete_document (store : List StoreEntry) (doc_id : String) : List StoreEntry :=
  store.filter (fun e => e.id ≠ doc_id)

/-- Stable insertion of `x` into a list sorted by `le`. -/
def insertSorted {α : Type} (le : α → α → Bool) (x : α) : List α → List α
  | [] => [x]
  | y :: ys => if le x y then x :: y :: ys else y :: insertSorted le x ys

/-- Stable sort by `le` (insertion sort). Models the index returning
results in ascending-distance order, stable w.r.t. insertion order. -/
def sortByLe {α : Type} (le : α → α → Bool) : List α → List α
  | [] => []
  | x :: xs => insertSorted le x (sortByLe le xs)

/-- `VectorStore.search(query_embedding, n_results, filter_metadata)`:
entries passing the metadata filter, ordered by ascending distance (the
distance function `dist` stands for the index's cosine distance), the first
`n_results` of them, each converted to a `RetrievedContext` whose score is
`1 - distance`. -/
def vector_search (dist : List ℚ → List ℚ → ℚ) (store : List StoreEntry)
    (query_embedding : List ℚ) (n_results : Nat)
    (filter_metadata : Option (String × String)) : List RetrievedContext :=
  let candidates :=
    match filter_metadata with
    | none => store
    | some kv => store.filter (fun e => dictGet e.metadata kv.1 "" == kv.2)
  let sorted := sortByLe
    (fun a b => decide (dist query_embedding a.embedding ≤ dist query_embedding b.embedding))
    candidates
  (sorted.take n_results).map (fun e =>
    { doc_id := e.id
      content := e.content
      score := 1 - dist query_embedding e.embedding
      metadata := e.metadata })

/-- The pipeline-visible persistent state: the relational knowledge-base
table and the vector-store collection. -/
structure PipelineState where
  db : List KnowledgeDoc
  store : List StoreEntry
deriving Repr, DecidableEq

/-- Metadata written for a document by `index_knowledge_base`. -/
def doc_metadata (d : KnowledgeDoc) : List (String × String) :=
  [("title", d.title), ("doc_type", d.doc_type),
   ("source_url", d.source_url.getD ""), ("priority", toString d.priority)]

/-- Whether `index_knowledge_base` selects `d` for (re-)indexing:
`force_refresh or not doc.embedding_id` over the active documents. -/
def needs_indexing (force_refresh : Bool) (d : KnowledgeDoc) : Bool :=
  force_refresh || !truthy d.embedding_id

/-- `RAGPipeline.index_knowledge_base(force_refresh)`: fetches the active
documents, selects those needing indexing, embeds their contents via
`embed` (the embedding service), adds them to the vector store with id
`kb_<id>`, and writes the embedding reference back onto each selected
record. The returned `Bool` records whether any embedding computation was
performed (the `embed_batch` call). -/
def index_knowledge_base (embed : String → List ℚ) (s : PipelineState)
    (force_refresh : Bool) : PipelineState × Bool :=
  let docs := s.db.filter (fun d => d.active)
  if docs.isEmpty then (s, false)
  else
    let docs_to_index := docs.filter (needs_indexing force_refresh)
    if docs_to_index.isEmpty then (s, false)
    else
      let entries := docs_to_index.map (fun d =>
        { id := "kb_" ++ toString d.id
          content := d.content
          metadata := doc_metadata d
          embedding := embed d.content : StoreEntry })
      let db := s.db.map (fun d =>
        if d.active && needs_indexing force_refresh d then
          { d with embedding_id := some ("kb_" ++ toString d.id) }
        else d)
      ({ db := db, store := add_documents s.store entries }, true)

/-- Mutation of a knowledge document's `active` flag, performed by the
external administrative/persistence layer on the shared table. -/
def set_active (s : PipelineState) (doc_id : Nat) (b : Bool) : PipelineState :=
  { s with db := s.db.map (fun d => if d.id == doc_id then { d with active := b } else d) }

/-- The operations that can touch the knowledge store between searches. -/
inductive StoreOp where
  | indexKB (force_refresh : Bool)
  | setActive (doc_id : Nat) (b : Bool)
  | deleteDoc (doc_id : String)
deriving Repr, DecidableEq

/-- Apply one store operation. -/
def apply_op (embed : String → List ℚ) (s : PipelineState) : StoreOp → PipelineState
  | .indexKB force_refresh => (index_knowledge_base embed s force_refresh).1
  | .setActive doc_id b => set_active s doc_id b
  | .deleteDoc doc_id => { s with store := delete_document s.store doc_id }

/-- Apply a sequence of store operations. -/
def run_ops (embed : String → List ℚ) (s : PipelineState) (ops : List StoreOp) :
    PipelineState :=
  ops.foldl (apply_op embed) s

/-- Python `round(x, 2)`: rounding to 2 decimal places (the tie-breaking
convention is irrelevant on the values this pipeline produces). -/
def round2 (x : ℚ) : ℚ :=
  ((round (x * 100) : ℤ) : ℚ) / 100

/-- Template names returned by `MessageGenerator._load_templates`:
`templates.get(intent, templates['cold'])['name']`. -/
def template_name (intent : String) : String :=
  if intent == "hot" then "high_intent_followup"
  else if intent == "warm" then "nurture_followup"
  else "introduction"

/-- The intent-multiplier dict of `_calculate_confidence`
(`intent_weights = {'hot': 1.0, 'warm': 0.85, 'cold': 0.7}` read with
default 0.6). -/
def intent_weight (intent : String) : ℚ :=
  if intent == "hot" then 1.0
  else if intent == "warm" then 0.85
  else if intent == "cold" then 0.7
  else 0.6

/-- `MessageGenerator._calculate_confidence(contexts, intent)`: 0.5 on empty
contexts, otherwise the average similarity times the intent weight,
capped at 0.95 and rounded to 2 decimals. -/
def calculate_confidence (contexts : List RetrievedContext) (intent : String) : ℚ :=
  if contexts.isEmpty then 0.5
  else
    let avg_similarity := (contexts.map (fun ctx => ctx.score)).sum / contexts.length
    round2 (min (avg_similarity * intent_weight intent) 0.95)

/-- One pass of the line loop in `MessageGenerator._parse_response`:
state is `(subject, body_lines, in_body)`. -/
def parse_step (acc : String × List String × Bool) (line : String) :
    String × List String × Bool :=
  let (subject, body_lines, in_body) := acc
  if line.trim.startsWith "SUBJECT:" then
    ((line.replace "SUBJECT:" "").trim, body_lines, in_body)
  else if line.trim.startsWith "BODY:" then
    let body_start := (line.replace "BODY:" "").trim
    if body_start.isEmpty then (subject, body_lines, true)
    else (subject, body_lines ++ [body_start], true)
  else if in_body then (subject, body_lines ++ [line], true)
  else acc

/-- `MessageGenerator._parse_response(content)`: extracts `(subject, body)`
from the backend's raw text, with the source's fallbacks when either marker
is missing. -/
def parse_response (content : String) : String × String :=
  let r := (content.splitOn "\n").foldl parse_step ("", [], false)
  let subject := r.1
  let body := (String.intercalate "\n" r.2.1).trim
  let subject := if subject.isEmpty then "Re: Your inquiry about BizPilot" else subject
  let body := if body.isEmpty then content else body
  (subject, body)

/-- Fallback subject per intent, from
`MessageGenerator._generate_fallback_message`'s template dict
(`templates.get(intent, templates['cold'])`). -/
def fallback_subject (intent : String) : String :=
  if intent == "hot" then "Re: Your BizPilot inquiry"
  else if intent == "warm" then "Learn more about BizPilot"
  else "Nice to meet you!"

/-- Fallback body per intent, from
`MessageGenerator._generate_fallback_message` (f-strings over
`lead_data.get('name', 'there')`). -/
def fallback_body (lead : LeadData) (intent : String) : String :=
  let name := lead.name.getD "there"
  if intent == "hot" then
    "Hi " ++ name ++ ",\n\nThanks for your interest in BizPilot!\n\nI\x27d love to show you how we can help automate your lead management and boost conversions.\n\nAre you available for a quick 15-minute demo this week?\n\nBest,\nBizPilot Team"
  else if intent == "warm" then
    "Hi " ++ name ++ ",\n\nThanks for reaching out!\n\nBizPilot helps small businesses automate lead triage and follow-ups, typically improving conversion rates by 15-25%.\n\nI\x27d be happy to share more details about how it works. Would you like to see a quick demo?\n\nBest,\nBizPilot Team"
  else
    "Hi " ++ name ++ ",\n\nThanks for your inquiry!\n\nBizPilot is a lead management automation platform for small businesses. We\x27d be happy to share more information.\n\nFeel free to reply if you\x27d like to learn more!\n\nBest,\nBizPilot Team"

/-- The result dict of `MessageGenerator.generate_message` (same keys on
the success and fallback paths). -/
structure GeneratedMessage where
  subject : String
  body : String
  channel : String
  confidence : ℚ
  template_used : String
  context_used : List String
  context_snippets : List String
  model_version : String
  latency_ms : Nat
  tokens_used : Nat
deriving Repr, DecidableEq

/-- `MessageGenerator._generate_fallback_message(lead_data, intent)`. -/
def generate_fallback_message (lead : LeadData) (intent : String) : GeneratedMessage :=
  { subject := fallback_subject intent
    body := fallback_body lead intent
    channel := "email"
    confidence := 0.50
    template_used := "fallback"
    context_used := []
    context_snippets := []
    model_version := "fallback"
    latency_ms := 0
    tokens_used := 0 }

/-- A successful response of the generative backend: raw text plus the
usage counters read by `generate_message`. -/
structure BackendResponse where
  content : String
  input_tokens : Nat
  output_tokens : Nat
deriving Repr, DecidableEq

/-- `MessageGenerator.generate_message(lead_data, intent, retrieved_contexts)`
with the contexts already supplied.

The external effects are explicit parameters: `backend` is the outcome of the
single generative-backend call (`none` for any raised failure — timeout,
malformed wire response, backend error), `audit_ok` whether the audit write
inside `_log_model_call` succeeds (its `session.commit` can itself raise, and
that raise is caught by the same `except` as a backend failure), and
`latency_ms` the measured wall-clock latency of the call.

Returns the result dict paired with whether an audit record was committed:
the source calls `_log_model_call` only on the success path, before building
the return value, and a failing audit write diverts the call to the fallback
path with no record persisted. -/
def generate_message (model_version : String) (lead : LeadData) (intent : String)
    (retrieved_contexts : List RetrievedContext)
    (backend : Option BackendResponse) (audit_ok : Bool) (latency_ms : Nat) :
    GeneratedMessage × Bool :=
  match backend with
  | none => (generate_fallback_message lead intent, false)
  | some response =>
    let (subject, body) := parse_response response.content
    let confidence := calculate_confidence retrieved_contexts intent
    let tokens_used := response.input_tokens + response.output_tokens
    if audit_ok then
      ({ subject := subject
         body := body
         channel := "email"
         confidence := confidence
         template_used := template_name intent
         context_used := retrieved_contexts.map (fun ctx => ctx.doc_id)
         context_snippets := retrieved_contexts.map (fun ctx => ctx.content.take 200)
         model_version := model_version
         latency_ms := latency_ms
         tokens_used := tokens_used }, true)
    else
      (generate_fallback_message lead intent, false)

/-- The spec's error taxonomy (§7) names a `ConfigurationError` for
backend/dimension mismatches. The repository defines no such class; this
type makes the "raises a configuration error" outcome statable. -/
inductive PipelineError where
  | configurationError (msg : String)
deriving Repr, DecidableEq

/-- State of `rag_pipeline.EmbeddingService` after `__init__`. -/
structure EmbeddingService where
  model_name : String
  uses_api : Bool
deriving Repr, DecidableEq

/-- `EmbeddingService.__init__(model_name)`: records the backend selection
(`'openai'` selects the API client, anything else the local model). The
source body only assigns fields and constructs the selected client; it
contains no backend/dimension/credential validation, so construction never
produces a `PipelineError.configurationError`. -/
def embedding_service_init (model_name : String) :
    Except PipelineError EmbeddingService :=
  .ok { model_name := model_name, uses_api := model_name == "openai" }

/-- State of `rag_pipeline.VectorStore` after `__init__`: a named
collection of entries. -/
structure VectorStoreState where
  collection_name : String
  entries : List StoreEntry
deriving Repr, DecidableEq

/-- `VectorStore.__init__(collection_name)`: gets or creates the collection.
The source body performs no backend/dimension validation. -/
def vector_store_init (collection_name : String) :
    Except PipelineError VectorStoreState :=
  .ok { collection_name := collection_name, entries := [] }

/-- `VectorStore.add_documents` at the instance level: the source calls
`collection.add` with no dimension or backend check of its own (any
dimension enforcement lives inside the external vector library, outside
this repository). -/
def vector_store_add (vs : VectorStoreState) (entries : List StoreEntry) :
    Except PipelineError VectorStoreState :=
  .ok { vs with entries := vs.entries ++ entries }

/-! ## Helper lemmas -/

theorem round_mono_rat {x y : ℚ} (h : x ≤ y) : round x ≤ round y := by
  rw [round_eq, round_eq]
  exact Int.floor_mono (by linarith)

theorem round2_mono {x y : ℚ} (h : x ≤ y) : round2 x ≤ round2 y := by
  unfold round2
  have h1 : round (x * 100) ≤ round (y * 100) :=
    round_mono_rat (by linarith)
  have h2 : ((round (x * 100) : ℤ) : ℚ) ≤ ((round (y * 100) : ℤ) : ℚ) := by
    exact_mod_cast h1
  linarith

theorem round2_cap {x : ℚ} (h : x ≤ 0.95) : round2 x ≤ 0.95 := by
  have h1 : round2 x ≤ round2 0.95 := round2_mono h
  have h2 : round2 (0.95 : ℚ) = 0.95 := by norm_num [round2, round_eq]
  linarith

theorem round2_nonneg {x : ℚ} (h : 0 ≤ x) : 0 ≤ round2 x := by
  have h1 : round2 0 ≤ round2 x := round2_mono h
  have h2 : round2 (0 : ℚ) = 0 := by norm_num [round2, round_eq]
  linarith

theorem string_append_ne_empty_left (a b : String) (h : a.data ≠ []) :
    a ++ b ≠ "" := by
  intro hab
  have hd : a.data ++ b.data = [] := by
    have h0 := congrArg String.data hab
    rw [String.data_append] at h0
    exact h0
  exact h (List.append_eq_nil.mp hd).1

theorem data_append_ne_nil_left (a b : String) (h : a.data ≠ []) :
    (a ++ b).data ≠ [] := by
  rw [String.data_append]
  intro hab
  exact h (List.append_eq_nil.mp hab).1

theorem pyLower_append (a b : String) :
    pyLower (a ++ b) = pyLower a ++ pyLower b := by
  apply String.ext
  show ((a ++ b).data.map Char.toLower) = (pyLower a ++ pyLower b).data
  rw [String.data_append, String.data_append, List.map_append]
  rfl

theorem containsSubstr_append_right (a b needle : String)
    (h : containsSubstr b needle = true) :
    containsSubstr (a ++ b) needle = true := by
  unfold containsSubstr at h ⊢
  rw [decide_eq_true_iff] at h ⊢
  rw [String.data_append]
  exact h.trans (List.suffix_append a.data b.data).isInfix

/-! ## C1: the rule cascade of the intent classifier -/

/-- C1: the intent classifier is an ordered first-match-wins cascade over
the lowercased query text: a hot-signal substring yields hot/0.85 with a
reason listing every matched phrase; else a warm-signal substring yields
warm/0.70; else a query shorter than 20 characters yields cold/0.60; else a
top context with similarity above 0.70 yields warm/0.65; else cold/0.50. -/
theorem claim_C1_rule_cascade (query : String) (contexts : List RetrievedContext) :
    (hot_signals.any (fun s => containsSubstr (pyLower query) s) = true →
      classify_with_rules query contexts =
        ("hot", 0.85, "High-intent keywords detected: " ++
          pyStrListRepr (hot_signals.filter (fun s => containsSubstr (pyLower query) s)))) ∧
    (hot_signals.any (fun s => containsSubstr (pyLower query) s) = false →
      warm_signals.any (fun s => containsSubstr (pyLower query) s) = true →
      classify_with_rules query contexts =
        ("warm", 0.70, "Interest indicators found: " ++
          pyStrListRepr (warm_signals.filter (fun s => containsSubstr (pyLower query) s)))) ∧
    (hot_signals.any (fun s => containsSubstr (pyLower query) s) = false →
      warm_signals.any (fun s => containsSubstr (pyLower query) s) = false →
      query.length < 20 →
      classify_with_rules query contexts = ("cold", 0.60, "Brief inquiry, needs more context")) ∧
    (hot_signals.any (fun s => containsSubstr (pyLower query) s) = false →
      warm_signals.any (fun s => containsSubstr (pyLower query) s) = false →
      ¬ query.length < 20 →
      ∀ c rest, contexts = c :: rest → (0.7 : ℚ) < c.score →
      classify_with_rules query contexts =
        ("warm", 0.65, "Relevant to our knowledge base: " ++ dictGet c.metadata "title" "N/A")) ∧
    (hot_signals.any (fun s => containsSubstr (pyLower query) s) = false →
      warm_signals.any (fun s => containsSubstr (pyLower query) s) = false →
      ¬ query.length < 20 →
      (∀ c, contexts.head? = some c → ¬ (0.7 : ℚ) < c.score) →
      classify_with_rules query contexts = ("cold", 0.50, "Standard inquiry, no strong signals")) := by
  refine ⟨?_, ?_, ?_, ?_, ?_⟩
  · intro h1
    simp [classify_with_rules, h1]
  · intro h1 h2
    simp [classify_with_rules, h1, h2]
  · intro h1 h2 h3
    simp [classify_with_rules, h1, h2, h3]
  · intro h1 h2 h3 c rest hctx hscore
    subst hctx
    simp [classify_with_rules, h1, h2, h3, hscore]
  · intro h1 h2 h3 hhead
    cases contexts with
    | nil => simp [classify_with_rules, h1, h2, h3]
    | cons c rest =>
      have hc := hhead c rfl
      simp [classify_with_rules, h1, h2, h3, hc]

/-- Witness for C1: "I want a demo ASAP" matches the hot signals "asap" and
"demo" and is classified hot/0.85 with both phrases listed. -/
theorem claim_C1_witness :
    classify_with_rules "I want a demo ASAP" [] =
      ("hot", 0.85, "High-intent keywords detected: " ++
        pyStrListRepr (hot_signals.filter
          (fun s => containsSubstr (pyLower "I want a demo ASAP") s))) :=
  (claim_C1_rule_cascade "I want a demo ASAP" []).1 (by decide)

/-! ## C10: the classified query is the decorated concatenation -/

/-- Helper: the hot branch of the cascade, shared between claim proofs. -/
theorem classify_with_rules_hot (query : String) (contexts : List RetrievedContext)
    (h : hot_signals.any (fun s => containsSubstr (pyLower query) s) = true) :
    classify_with_rules query contexts =
      ("hot", 0.85, "High-intent keywords detected: " ++
        pyStrListRepr (hot_signals.filter (fun s => containsSubstr (pyLower query) s))) := by
  simp [classify_with_rules, h]

/-- C10: the classifier inspects the decorated query, not the raw inquiry:
with any of company/message/subject present the query is the newline-join
of the parts prefixed by "Company: ", "Message: " and "Subject: "; hot
keywords inside the company name therefore trigger the hot rule, and a
company-only lead always yields a query of at least 9 characters. -/
theorem claim_C10_decorated_query (lead : LeadData) (embed : String → List ℚ)
    (searchFn : SearchFn) :
    ((truthy lead.company = true ∨ truthy lead.source_metadata.message = true ∨
        truthy lead.source_metadata.subject = true) →
      build_classification_query lead = String.intercalate "\n"
        ((if truthy lead.company then ["Company: " ++ lead.company.getD ""] else []) ++
         (if truthy lead.source_metadata.message then
           ["Message: " ++ lead.source_metadata.message.getD ""] else []) ++
         (if truthy lead.source_metadata.subject then
           ["Subject: " ++ lead.source_metadata.subject.getD ""] else []))) ∧
    (∀ sig ∈ hot_signals,
      truthy lead.company = true →
      truthy lead.source_metadata.message = false →
      truthy lead.source_metadata.subject = false →
      containsSubstr (pyLower (lead.company.getD "")) sig = true →
      (classify_lead embed searchFn lead).intent = "hot") ∧
    (truthy lead.company = true →
      truthy lead.source_metadata.message = false →
      truthy lead.source_metadata.subject = false →
      9 ≤ (build_classification_query lead).length) := by
  have hq : truthy lead.company = true → truthy lead.source_metadata.message = false →
      truthy lead.source_metadata.subject = false →
      build_classification_query lead = "Company: " ++ lead.company.getD "" := by
    intro hc hm hs
    simp only [build_classification_query, hc, hm, hs, if_true, if_false,
      List.append_nil, List.isEmpty_cons, Bool.false_eq_true, if_neg]
    rfl
  refine ⟨?_, ?_, ?_⟩
  · intro h
    cases hc : truthy lead.company <;>
      cases hm : truthy lead.source_metadata.message <;>
        cases hs : truthy lead.source_metadata.subject <;>
          simp_all [build_classification_query]
  · intro sig hsig hc hm hs hsub
    have hquery := hq hc hm hs
    have hhot : hot_signals.any
        (fun s => containsSubstr (pyLower (build_classification_query lead)) s) = true := by
      rw [hquery, pyLower_append]
      refine List.any_eq_true.mpr ⟨sig, hsig, ?_⟩
      exact containsSubstr_append_right _ _ _ hsub
    have hres := classify_with_rules_hot (build_classification_query lead)
      (searchFn (embed (build_classification_query lead)) 5 none) hhot
    simp [classify_lead, hres]
  · intro hc hm hs
    rw [hq hc hm hs, String.length_append]
    have : ("Company: " : String).length = 9 := by decide
    omega

/-- Witness for C10: a lead whose only populated field is the company name
"Pricing Plus" is classified hot, because "pricing" occurs inside the
company name. -/
theorem claim_C10_witness :
    (classify_lead (fun _ => []) (fun _ _ _ => [])
      { name := some "Jo", company := some "Pricing Plus", email := none,
        source_metadata := { message := none, subject := none } }).intent = "hot" :=
  (claim_C10_decorated_query
    { name := some "Jo", company := some "Pricing Plus", email := none,
      source_metadata := { message := none, subject := none } }
    (fun _ => []) (fun _ _ _ => [])).2.1 "pricing" (by decide) (by decide)
    (by decide) (by decide) (by decide)

/-! ## C6: retrieval-pass contracts -/

/-- C6: the classification retrieval pass builds its query from company,
message and subject in that fixed priority order (falling back to the
lead's name alone when all are absent) and always requests 5 unfiltered
results; the generation pass seeds the query per intent, appends the
company name when present, requests 3 results, and filters to
doc_type=faq exactly when the intent is hot. -/
theorem claim_C6_retrieval_contracts (embed : String → List ℚ) (searchFn : SearchFn)
    (lead : LeadData) (intent : String) :
    (classify_lead embed searchFn lead =
      { intent := (classify_with_rules (build_classification_query lead)
          (searchFn (embed (build_classification_query lead)) 5 none)).1
        confidence := (classify_with_rules (build_classification_query lead)
          (searchFn (embed (build_classification_query lead)) 5 none)).2.1
        reason := (classify_with_rules (build_classification_query lead)
          (searchFn (embed (build_classification_query lead)) 5 none)).2.2
        retrieved_docs := (searchFn (embed (build_classification_query lead)) 5 none).map
          (fun ctx => ctx.doc_id)
        context_snippets := (searchFn (embed (build_classification_query lead)) 5 none).map
          (fun ctx => ctx.content.take 200) }) ∧
    (truthy lead.company = false → truthy lead.source_metadata.message = false →
      truthy lead.source_metadata.subject = false →
      build_classification_query lead = lead.name.getD "") ∧
    (generation_seed "hot" = "pricing demo trial purchase" ∧
     generation_seed "warm" = "features benefits how it works" ∧
     (intent ≠ "hot" → intent ≠ "warm" →
       generation_seed intent = "introduction overview getting started")) ∧
    (truthy lead.company = true →
      build_generation_query lead intent =
        generation_seed intent ++ " " ++ lead.company.getD "") ∧
    (truthy lead.company = false →
      build_generation_query lead intent = generation_seed intent) ∧
    (intent = "hot" →
      retrieve_context_for_message embed searchFn lead intent =
        searchFn (embed (build_generation_query lead intent)) 3 (some ("doc_type", "faq"))) ∧
    (intent ≠ "hot" →
      retrieve_context_for_message embed searchFn lead intent =
        searchFn (embed (build_generation_query lead intent)) 3 none) := by
  refine ⟨rfl, ?_, ⟨rfl, rfl, ?_⟩, ?_, ?_, ?_, ?_⟩
  · intro hc hm hs
    simp [build_classification_query, hc, hm, hs]
  · intro h1 h2
    simp [generation_seed, beq_iff_eq, h1, h2]
  · intro hc
    simp only [build_generation_query, hc, if_true]
    show String.intercalate " " [generation_seed intent, lead.company.getD ""] = _
    have : ∀ a b : String, String.intercalate " " [a, b] = a ++ " " ++ b := by
      intro a b
      rfl
    rw [this]
  · intro hc
    simp only [build_generation_query, hc, Bool.false_eq_true, if_false, List.append_nil]
    rfl
  · intro h
    subst h
    rfl
  · intro h
    simp [retrieve_context_for_message, beq_iff_eq, h]

/-- Witness for C6: a lead with no company, message or subject falls back
to the name-only query. -/
theorem claim_C6_witness :
    build_classification_query
      { name := some "John Doe", company := none, email := none,
        source_metadata := { message := none, subject := none } } = "John Doe" :=
  (claim_C6_retrieval_contracts (fun _ => []) (fun _ _ _ => [])
    { name := some "John Doe", company := none, email := none,
      source_metadata := { message := none, subject := none } } "cold").2.1
    (by decide) (by decide) (by decide)

/-! ## C9: classifier range -/

/-- C9: the rule classifier only ever produces the intents hot, warm and
cold — never the declared `unqualified` intent — and its confidence is one
of the five literals 0.50, 0.60, 0.65, 0.70, 0.85, hence within [0, 1]. -/
theorem claim_C9_classifier_range (query : String) (contexts : List RetrievedContext) :
    ((classify_with_rules query contexts).1 = "hot" ∨
     (classify_with_rules query contexts).1 = "warm" ∨
     (classify_with_rules query contexts).1 = "cold") ∧
    (classify_with_rules query contexts).1 ≠ LeadIntent.unqualified.toStr ∧
    ((classify_with_rules query contexts).2.1 = 0.50 ∨
     (classify_with_rules query contexts).2.1 = 0.60 ∨
     (classify_with_rules query contexts).2.1 = 0.65 ∨
     (classify_with_rules query contexts).2.1 = 0.70 ∨
     (classify_with_rules query contexts).2.1 = 0.85) ∧
    0 ≤ (classify_with_rules query contexts).2.1 ∧
    (classify_with_rules query contexts).2.1 ≤ 1 := by
  unfold classify_with_rules
  cases contexts with
  | nil =>
    dsimp only
    split_ifs <;>
      exact ⟨by simp, by simp [LeadIntent.toStr], by norm_num, by norm_num, by norm_num⟩
  | cons c rest =>
    dsimp only
    split_ifs <;>
      exact ⟨by simp, by simp [LeadIntent.toStr], by norm_num, by norm_num, by norm_num⟩

/-! ## C2: backend failure yields the static fallback message -/

/-- C2: on any generative-backend failure, `generate_message` propagates no
error: it returns the intent-specific static fallback with confidence
exactly 0.50, template_used "fallback", empty context-id and
context-snippet lists, zero latency and token fields, and a non-empty
subject and body. -/
theorem claim_C2_fallback_on_failure (model_version : String) (lead : LeadData)
    (intent : String) (retrieved_contexts : List RetrievedContext)
    (audit_ok : Bool) (latency_ms : Nat) :
    (generate_message model_version lead intent retrieved_contexts none
        audit_ok latency_ms).1 = generate_fallback_message lead intent ∧
    (generate_fallback_message lead intent).confidence = 0.50 ∧
    (generate_fallback_message lead intent).template_used = "fallback" ∧
    (generate_fallback_message lead intent).context_used = [] ∧
    (generate_fallback_message lead intent).context_snippets = [] ∧
    (generate_fallback_message lead intent).latency_ms = 0 ∧
    (generate_fallback_message lead intent).tokens_used = 0 ∧
    (generate_fallback_message lead intent).subject ≠ "" ∧
    (generate_fallback_message lead intent).body ≠ "" := by
  refine ⟨rfl, rfl, rfl, rfl, rfl, rfl, rfl, ?_, ?_⟩
  · show fallback_subject intent ≠ ""
    unfold fallback_subject
    split_ifs <;> decide
  · show fallback_body lead intent ≠ ""
    unfold fallback_body
    split_ifs <;>
      exact string_append_ne_empty_left _ _ (data_append_ne_nil_left "Hi " _ (by decide))

/-! ## C3: generation confidence scoring -/

/-- A retrieved context carrying a negative similarity score (the
`1 - distance` conversion goes negative when the cosine distance exceeds
1, i.e. for an anti-correlated vector). -/
def neg_score_context : RetrievedContext :=
  { doc_id := "kb_1", content := "doc", score := -(1/2), metadata := [] }

/-- Counterexample for C3: the code has no lower clamp, so a context list
with a negative average similarity yields a negative confidence — outside
the claimed interval [0, 0.95]. -/
theorem claim_C3_counterexample :
    calculate_confidence [neg_score_context] "hot" = -(1/2) ∧
    calculate_confidence [neg_score_context] "hot" < 0 := by
  have h : calculate_confidence [neg_score_context] "hot" = -(1/2) := by
    unfold calculate_confidence neg_score_context
    norm_num [intent_weight, round2, round_eq]
  exact ⟨h, by rw [h]; norm_num⟩

/-- Helper: the intent multiplier is nonnegative in all four cases. -/
theorem intent_weight_nonneg (intent : String) : 0 ≤ intent_weight intent := by
  unfold intent_weight
  split_ifs <;> norm_num

/-- C3 (amended): with empty contexts the confidence is exactly 0.5; with
non-empty contexts it equals the average similarity times the intent
weight, capped at 0.95 and rounded to 2 decimals, and is at most 0.95; it
lies in [0, 0.95] whenever every context score is nonnegative (the code
has no lower clamp, so negative scores escape the claimed interval). -/
theorem claim_C3_confidence (contexts : List RetrievedContext) (intent : String) :
    (calculate_confidence [] intent = 0.5) ∧
    (contexts ≠ [] →
      calculate_confidence contexts intent =
        round2 (min (((contexts.map (fun ctx => ctx.score)).sum / contexts.length) *
          intent_weight intent) 0.95)) ∧
    (contexts ≠ [] → calculate_confidence contexts intent ≤ 0.95) ∧
    (contexts ≠ [] → (∀ ctx ∈ contexts, 0 ≤ ctx.score) →
      0 ≤ calculate_confidence contexts intent) := by
  have key : ∀ (c : RetrievedContext) (cs : List RetrievedContext),
      calculate_confidence (c :: cs) intent =
        round2 (min ((((c :: cs).map (fun ctx => ctx.score)).sum / (c :: cs).length) *
          intent_weight intent) 0.95) := fun c cs => rfl
  refine ⟨rfl, ?_, ?_, ?_⟩
  · intro h
    cases contexts with
    | nil => exact absurd rfl h
    | cons c cs => exact key c cs
  · intro h
    cases contexts with
    | nil => exact absurd rfl h
    | cons c cs =>
      rw [key c cs]
      exact round2_cap (min_le_right _ _)
  · intro h hscores
    cases contexts with
    | nil => exact absurd rfl h
    | cons c cs =>
      rw [key c cs]
      apply round2_nonneg
      apply le_min
      · apply mul_nonneg
        · apply div_nonneg
          · apply List.sum_nonneg
            intro x hx
            rcases List.mem_map.mp hx with ⟨ctx, hctx, rfl⟩
            exact hscores ctx hctx
          · exact_mod_cast Nat.zero_le _
        · exact intent_weight_nonneg intent
      · norm_num

/-- A retrieved context with a positive score, for the C3 witness. -/
def pos_score_context : RetrievedContext :=
  { doc_id := "kb_2", content := "doc", score := 4/5, metadata := [] }

/-- Witness for C3: on a nonnegative-score context the confidence lies in
[0, 0.95]. -/
theorem claim_C3_witness :
    calculate_confidence [pos_score_context] "warm" ≤ 0.95 ∧
    0 ≤ calculate_confidence [pos_score_context] "warm" :=
  ⟨(claim_C3_confidence [pos_score_context] "warm").2.2.1 (by simp),
   (claim_C3_confidence [pos_score_context] "warm").2.2.2 (by simp)
     (by
       intro ctx hctx
       rw [List.mem_singleton.mp hctx]
       norm_num [pos_score_context])⟩

/-! ## C5: audit record emission -/

/-- A lead fixture for the generator claims. -/
def sample_lead : LeadData :=
  { name := some "Sarah Johnson", company := some "TechStart Inc",
    email := some "sarah@techstart.com",
    source_metadata := { message := some "Need a demo", subject := none } }

/-- A well-formed backend response fixture. -/
def sample_response : BackendResponse :=
  { content := "SUBJECT: Hello\nBODY: Welcome to BizPilot.",
    input_tokens := 100, output_tokens := 50 }

/-- Counterexample for C5: on the fallback path (failed backend call) no
audit record is emitted at all; and on the success path a failing audit
write changes the caller's result from the generated message to the
fallback (the audit write is inside the same `try` as the backend call). -/
theorem claim_C5_counterexample :
    (generate_message "claude-sonnet-4-5-20250929" sample_lead "hot" [] none
        true 4).2 = false ∧
    (generate_message "claude-sonnet-4-5-20250929" sample_lead "hot" []
        (some sample_response) false 4).1.template_used = "fallback" ∧
    (generate_message "claude-sonnet-4-5-20250929" sample_lead "hot" []
        (some sample_response) true 4).1.template_used = "high_intent_followup" ∧
    (generate_message "claude-sonnet-4-5-20250929" sample_lead "hot" []
        (some sample_response) false 4).1 ≠
      (generate_message "claude-sonnet-4-5-20250929" sample_lead "hot" []
        (some sample_response) true 4).1 := by
  refine ⟨rfl, rfl, rfl, fun h => ?_⟩
  exact absurd (congrArg GeneratedMessage.template_used h) (by decide)

/-- C5 (amended): `generate_message` emits the audit record exactly on the
successful path: a fallback return emits none, and a failing audit write
is caught like a backend failure, so the caller still receives a message —
but the fallback, not the generated one. -/
theorem claim_C5_audit_emission (model_version : String) (lead : LeadData)
    (intent : String) (retrieved_contexts : List RetrievedContext)
    (response : BackendResponse) (audit_ok : Bool) (latency_ms : Nat) :
    ((generate_message model_version lead intent retrieved_contexts none
        audit_ok latency_ms).2 = false) ∧
    ((generate_message model_version lead intent retrieved_contexts
        (some response) true latency_ms).2 = true) ∧
    ((generate_message model_version lead intent retrieved_contexts
        (some response) false latency_ms) =
      (generate_fallback_message lead intent, false)) :=
  ⟨rfl, rfl, rfl⟩

/-! ## C7: unforced indexing is idempotent -/

/-- C7: running unforced indexing over a knowledge base whose documents all
already carry an embedding reference computes no embeddings and leaves the
document records and the vector index unchanged. -/
theorem claim_C7_index_idempotent (embed : String → List ℚ) (s : PipelineState)
    (h : ∀ d ∈ s.db, truthy d.embedding_id = true) :
    index_knowledge_base embed s false = (s, false) := by
  unfold index_knowledge_base
  by_cases hempty : (s.db.filter (fun d => d.active)).isEmpty = true
  · rw [if_pos hempty]
  · rw [if_neg hempty]
    have hfilter : (s.db.filter (fun d => d.active)).filter (needs_indexing false) = [] := by
      rw [List.filter_eq_nil_iff]
      intro d hd
      have hdb : d ∈ s.db := (List.mem_filter.mp hd).1
      simp [needs_indexing, h d hdb]
    rw [hfilter]
    rfl

/-- A document fixture that already carries an embedding reference. -/
def indexed_doc : KnowledgeDoc :=
  { id := 1, title := "Pricing - Starter Plan", content := "Starter plan info",
    doc_type := "faq", source_url := none, priority := 0, active := true,
    embedding_id := some "kb_1" }

/-- A state whose single document is already indexed. -/
def indexed_state : PipelineState :=
  { db := [indexed_doc],
    store := [{ id := "kb_1", content := "Starter plan info",
                metadata := doc_metadata indexed_doc, embedding := [1] }] }

/-- Witness for C7: unforced indexing of the already-indexed state is a
no-op. -/
theorem claim_C7_witness :
    index_knowledge_base (fun _ => [1]) indexed_state false = (indexed_state, false) :=
  claim_C7_index_idempotent (fun _ => [1]) indexed_state (by decide)

/-! ## C4: inactive documents and search -/

/-- A constant embedding oracle for concrete store traces. -/
def const_embed : String → List ℚ := fun _ => [1]

/-- A constant zero distance oracle for concrete store traces. -/
def zero_dist : List ℚ → List ℚ → ℚ := fun _ _ => 0

/-- A knowledge document that starts active and unindexed. -/
def active_doc : KnowledgeDoc :=
  { id := 1, title := "Pricing - Starter Plan", content := "Starter plan info",
    doc_type := "faq", source_url := none, priority := 0, active := true,
    embedding_id := none }

/-- Index the document while it is active, then flip its active flag off. -/
def deactivation_trace : PipelineState :=
  run_ops const_embed { db := [active_doc], store := [] }
    [.indexKB false, .setActive 1 false]

/-- Counterexample for C4: after indexing document 1 while active and then
setting its active flag to false, the document record is inactive but
search still returns its vector entry kb_1 — nothing removes deactivated
documents from the index. -/
theorem claim_C4_counterexample :
    (deactivation_trace.db.map (fun d => (d.id, d.active))) = [(1, false)] ∧
    ((vector_search zero_dist deactivation_trace.store (const_embed "query") 5 none).map
      (fun ctx => ctx.doc_id)) = ["kb_" ++ toString active_doc.id] := by
  exact ⟨rfl, rfl⟩

/-- C4 (amended): `index_knowledge_base` never adds an inactive document:
every vector-store entry after an indexing call either predates the call
or stems from a document that was active at indexing time. (Deactivating
a document after indexing does not remove its entry, as the
counterexample shows.) -/
theorem claim_C4_index_only_active (embed : String → List ℚ) (s : PipelineState)
    (force_refresh : Bool) (e : StoreEntry)
    (he : e ∈ (index_knowledge_base embed s force_refresh).1.store) :
    e ∈ s.store ∨ ∃ d, d ∈ s.db ∧ d.active = true ∧ e.id = "kb_" ++ toString d.id := by
  unfold index_knowledge_base at he
  by_cases h1 : (s.db.filter (fun d => d.active)).isEmpty = true
  · rw [if_pos h1] at he
    exact .inl he
  · rw [if_neg h1] at he
    by_cases h2 : ((s.db.filter (fun d => d.active)).filter
        (needs_indexing force_refresh)).isEmpty = true
    · rw [if_pos h2] at he
      exact .inl he
    · rw [if_neg h2] at he
      simp only [add_documents, List.mem_append, List.mem_map] at he
      rcases he with h | ⟨d, hd, rfl⟩
      · exact .inl h
      · right
        have hd1 := (List.mem_filter.mp hd).1
        exact ⟨d, (List.mem_filter.mp hd1).1, (List.mem_filter.mp hd1).2, rfl⟩

/-- The entry produced by indexing `active_doc`. -/
def active_entry : StoreEntry :=
  { id := "kb_1", content := "Starter plan info",
    metadata := doc_metadata active_doc, embedding := const_embed "Starter plan info" }

/-- Witness for C4: the entry produced by indexing the active document is
in the indexed store, and it stems from an active document. -/
theorem claim_C4_witness :
    active_entry ∈
      (index_knowledge_base const_embed { db := [active_doc], store := [] } false).1.store ∧
    (active_entry ∈ ({ db := [active_doc], store := [] } : PipelineState).store ∨
      ∃ d, d ∈ ({ db := [active_doc], store := [] } : PipelineState).db ∧
        d.active = true ∧ active_entry.id = "kb_" ++ toString d.id) := by
  have hmem : active_entry ∈
      (index_knowledge_base const_embed { db := [active_doc], store := [] } false).1.store := by
    show active_entry ∈ [active_entry]
    exact List.mem_singleton_self _
  exact ⟨hmem, claim_C4_index_only_active const_embed _ false active_entry hmem⟩

/-! ## C8: no configuration-error check exists -/

/-- A store entry whose embedding has dimension 2. -/
def dim2_entry : StoreEntry :=
  { id := "kb_1", content := "a", metadata := [], embedding := [1, 0] }

/-- A store entry whose embedding has dimension 3. -/
def dim3_entry : StoreEntry :=
  { id := "kb_2", content := "b", metadata := [], embedding := [1, 0, 0] }

/-- Counterexample for C8: both backends construct successfully, the store
constructs successfully, vectors of mismatched dimensions are silently
accepted into one collection, and a search over the mixed collection
returns results — no ConfigurationError is raised at construction or
first use (none exists in the code). -/
theorem claim_C8_counterexample :
    embedding_service_init "openai" =
      .ok { model_name := "openai", uses_api := true } ∧
    embedding_service_init "all-MiniLM-L6-v2" =
      .ok { model_name := "all-MiniLM-L6-v2", uses_api := false } ∧
    ((vector_store_init "bizpilot_knowledge").bind (fun vs =>
      (vector_store_add vs [dim2_entry]).bind (fun vs2 =>
        vector_store_add vs2 [dim3_entry]))) =
      .ok { collection_name := "bizpilot_knowledge",
            entries := [dim2_entry, dim3_entry] } ∧
    ((vector_search zero_dist [dim2_entry, dim3_entry] [1, 0] 5 none).map
      (fun ctx => ctx.doc_id)) = ["kb_1", "kb_2"] := by
  refine ⟨rfl, rfl, rfl, ?_⟩
  have hle : decide (zero_dist [1, 0] dim2_entry.embedding ≤
      zero_dist [1, 0] dim3_entry.embedding) = true :=
    decide_eq_true (le_refl (0 : ℚ))
  simp only [vector_search, sortByLe, insertSorted, hle, if_true]
  rfl

/-- C8 (amended): the code performs no backend/dimension validation at all:
`EmbeddingService.__init__` and `VectorStore.__init__` always succeed for
any configuration, `add_documents` accepts any entries without a
dimension check, and no ConfigurationError value is ever produced. -/
theorem claim_C8_no_config_validation (model_name collection_name : String)
    (vs : VectorStoreState) (entries : List StoreEntry) :
    embedding_service_init model_name =
      .ok { model_name := model_name, uses_api := model_name == "openai" } ∧
    (∀ msg, embedding_service_init model_name ≠
      .error (.configurationError msg)) ∧
    vector_store_init collection_name =
      .ok { collection_name := collection_name, entries := [] } ∧
    (∀ msg, vector_store_add vs entries ≠
      .error (.configurationError msg)) ∧
    vector_store_add vs entries = .ok { vs with entries := vs.entries ++ entries } :=
  ⟨rfl, fun _ h => Except.noConfusion h, rfl, fun _ h => Except.noConfusion h, rfl⟩

end BizPilot
